import Mathlib

/-!
Verification development for the `marketing-agent` repository.

The Python sources under `src/marketing_agent/` are shallowly embedded:
pure computations become Lean functions, Python exceptions become
`Except String` (the string holds the exception description), Python
`None` becomes `Option.none`, and JSON values obtained from
`json.loads` / `response.json()` are modelled by the inductive `Json`
below.  External effects (the HTTP transport, the filesystem read, the
wall clock) are inputs to the embedded functions: each embedded
operation takes the outcome of the effect as an explicit argument and
computes exactly what the Python code computes from it.
-/

set_option maxHeartbeats 1000000

namespace MarketingAgent

/-- A JSON value as produced by Python's `json.loads` / `response.json()`.
Objects are association lists with string keys (Python dicts parsed from
JSON have unique keys, later duplicates overwriting earlier ones, so a
plain lookup is faithful). -/
inductive Json where
  | null : Json
  | bool (b : Bool) : Json
  | num (n : Int) : Json
  | str (s : String) : Json
  | arr (xs : List Json) : Json
  | obj (kvs : List (String × Json)) : Json
deriving Repr

/-- Python `key in j` (the `in` operator): key lookup on dicts, element
membership on lists, substring test on strings, `TypeError` otherwise. -/
def pyContains (j : Json) (key : String) : Except String Bool :=
  match j with
  | .obj kvs => .ok (kvs.any (fun kv => kv.1 == key))
  | .arr xs => .ok (xs.any (fun x => match x with | .str s => s == key | _ => false))
  | .str s => .ok (decide ((s.splitOn key).length > 1))
  | _ => .error "TypeError: argument is not iterable"

/-- Python `j[key]` with a string key: dict lookup (`KeyError` when the
key is absent), `TypeError` on any non-dict value. -/
def pyGetItem (j : Json) (key : String) : Except String Json :=
  match j with
  | .obj kvs =>
      match kvs.find? (fun kv => kv.1 == key) with
      | some kv => .ok kv.2
      | none => .error ("KeyError: " ++ key)
  | _ => .error "TypeError: value is not subscriptable by a string"

/-- Python `j[0]`: first element of a list (`IndexError` when empty),
first character of a string, `KeyError` on dicts (JSON object keys are
strings, never the integer 0), `TypeError` otherwise. -/
def pyGetIdxZero (j : Json) : Except String Json :=
  match j with
  | .arr xs =>
      match xs with
      | x :: _ => .ok x
      | [] => .error "IndexError: list index out of range"
  | .str s =>
      match s.toList with
      | c :: _ => .ok (.str (String.mk [c]))
      | [] => .error "IndexError: string index out of range"
  | .obj _ => .error "KeyError: 0"
  | _ => .error "TypeError: value is not subscriptable"

/-- Python `len(j)`: defined for lists, strings and dicts, `TypeError`
otherwise. -/
def pyLen (j : Json) : Except String Nat :=
  match j with
  | .arr xs => .ok xs.length
  | .str s => .ok s.length
  | .obj kvs => .ok kvs.length
  | _ => .error "TypeError: value has no length"

/-- Python `j.get(key, default)`: only dicts have the `get` method
(`AttributeError` otherwise); a missing key yields the default. -/
def pyDictGet (j : Json) (key : String) (dflt : Json) : Except String Json :=
  match j with
  | .obj kvs =>
      match kvs.find? (fun kv => kv.1 == key) with
      | some kv => .ok kv.2
      | none => .ok dflt
  | _ => .error "AttributeError: value has no attribute get"

/-- Python `j.get(key)` (one-argument form, default `None`): returns
`Option.none` for a missing key; `AttributeError` on non-dicts. -/
def pyDictGetOpt (j : Json) (key : String) : Except String (Option Json) :=
  match j with
  | .obj kvs =>
      match kvs.find? (fun kv => kv.1 == key) with
      | some kv => .ok (some kv.2)
      | none => .ok none
  | _ => .error "AttributeError: value has no attribute get"

/-- Python `s.rstrip('/')`: drop trailing `/` characters. -/
def rstripSlash (s : String) : String :=
  String.mk ((s.toList.reverse.dropWhile (fun c => c = '/')).reverse)

/-- Python `str.isspace` on the ASCII whitespace characters recognised
by `str.split()` with no argument. -/
def pyIsSpace (c : Char) : Bool :=
  c = ' ' ∨ c = '\t' ∨ c = '\n' ∨ c = '\x0d' ∨ c = '\x0b' ∨ c = '\x0c'

/-- Python `s.startswith(pat)`. -/
def strStartsWith (s pat : String) : Bool :=
  pat.toList.isPrefixOf s.toList

/-- Python `s[n:]`: drop the first `n` characters. -/
def strDrop (s : String) (n : Nat) : String :=
  String.mk (s.toList.drop n)

/-- Python `s.strip()` with no argument: remove leading and trailing
whitespace. -/
def strTrim (s : String) : String :=
  String.mk (((s.toList.dropWhile pyIsSpace).reverse.dropWhile pyIsSpace).reverse)

/-- Accumulator-based splitter over the character list: `acc` holds the
current token's characters in reverse. -/
def splitWsAux : List Char → List Char → List String
  | [], acc => if acc = [] then [] else [String.mk acc.reverse]
  | c :: cs, acc =>
      if pyIsSpace c then
        if acc = [] then splitWsAux cs []
        else String.mk acc.reverse :: splitWsAux cs []
      else splitWsAux cs (c :: acc)

/-- Python `s.split()` with no argument: split on runs of whitespace,
discarding empty tokens. -/
def pyStrSplit (s : String) : List String :=
  splitWsAux s.toList []

/-- One turn in a conversation: `{"role": ..., "content": ...}`. -/
structure Message where
  role : String
  content : String
deriving Repr, DecidableEq

/-- The `LLMResponse` dataclass of `llm_client.py` with the dynamically
typed field values the providers actually store: `content`, `usage` and
`finish_reason` are copied straight out of the response JSON, so they
are `Json` values (annotations in the source are not enforced at
runtime). -/
structure LLMResponseRaw where
  content : Json
  model : String
  usage : Option Json
  finish_reason : Option Json
  provider : String
deriving Repr

/-- The `LLMResponse` dataclass as its annotations describe it, used at
the agent layer where a response is an abstract value delivered by the
client: `usage: Optional[Dict[str, int]]`, `finish_reason: Optional[str]`. -/
structure LLMResponse where
  content : String
  model : String
  usage : Option (List (String × Int)) := none
  finish_reason : Option String := none
  provider : String := "unknown"
deriving Repr, DecidableEq

/-- The `FileContent` dataclass of `file_reader.py`. -/
structure FileContent where
  file_path : String
  content : String
  file_size : Nat
  encoding : String
deriving Repr, DecidableEq

/-- The `ProcessingResult` dataclass of `agent.py`.  `llm_response` is
`Option LLMResponse` because the failure branches store Python `None`
there. -/
structure ProcessingResult where
  file_path : String
  file_content : FileContent
  llm_response : Option LLMResponse
  processing_time : Nat
  success : Bool
  error_message : Option String := none
deriving Repr, DecidableEq

/-- Outcome of `FileReader.read_file` as observed by the agent: a
`FileContent`, a Python `None` (the reader logs and returns `None` on
read errors), or an exception escaping the reader. -/
inductive ReadOutcome where
  | ok (fc : FileContent)
  | failed
  | raised (msg : String)
deriving Repr, DecidableEq

/-- Outcome of a call into the LLM client: a value, or an exception
with its rendered message `str(e)`. -/
inductive CallOutcome (α : Type) where
  | ok (v : α)
  | raised (msg : String)
deriving Repr, DecidableEq

/-- A value occurring in an outgoing request body. -/
inductive PVal where
  | vStr (s : String)
  | vInt (n : Int)
  | vRat (q : ℚ)
  | vBool (b : Bool)
  | vMsgs (ms : List Message)
deriving Repr, DecidableEq

/-- Model of `OpenAIProvider.generate_response`, payload construction: the dict
literal `{"model": ..., "messages": ..., "max_tokens": ...,
"temperature": ..., "stream": False}` as an ordered key/value list. -/
def openaiPayload (model : String) (messages : List Message)
    (max_tokens : Int) (temperature : ℚ) : List (String × PVal) :=
  [("model", .vStr model), ("messages", .vMsgs messages),
   ("max_tokens", .vInt max_tokens), ("temperature", .vRat temperature),
   ("stream", .vBool false)]

/-- Model of `CustomProvider.generate_response`, payload construction: the dict
literal `{"model": ..., "messages": ..., "max_tokens": ...,
"temperature": ...}` (no `stream` entry). -/
def customPayload (model : String) (messages : List Message)
    (max_tokens : Int) (temperature : ℚ) : List (String × PVal) :=
  [("model", .vStr model), ("messages", .vMsgs messages),
   ("max_tokens", .vInt max_tokens), ("temperature", .vRat temperature)]

/-- Model of `OpenAIProvider.generate_response`, request URL:
`f"{self.base_url}/chat/completions"` where `__init__` stored
`base_url or "https://api.openai.com/v1"` (Python `or`: `None` and the
empty string both fall back to the default). -/
def openaiUrl (base_url : Option String) : String :=
  (match base_url with
   | some b => if b = "" then "https://api.openai.com/v1" else b
   | none => "https://api.openai.com/v1") ++ "/chat/completions"

/-- Model of `CustomProvider.generate_response`, request URL:
`f"{self.base_url}/chat/completions"` where `__init__` stored
`base_url.rstrip('/')`. -/
def customUrl (base_url : String) : String :=
  rstripSlash base_url ++ "/chat/completions"

/-- Model of `OpenAIProvider.generate_response`, response normalisation from the
decoded response JSON `data`:
`choice = data["choices"][0]` and
`LLMResponse(content=choice["message"]["content"], model=self.model,
usage=data.get("usage"), finish_reason=choice.get("finish_reason"),
provider="openai")`.  A `KeyError`/`TypeError`/`IndexError` along the
way is re-raised (the `except KeyError` clause logs and re-raises). -/
def openaiGenerate (model : String) (data : Json) : Except String LLMResponseRaw :=
  match pyGetItem data "choices" with
  | .error e => .error e
  | .ok choices =>
    match pyGetIdxZero choices with
    | .error e => .error e
    | .ok choice =>
      match pyGetItem choice "message" with
      | .error e => .error e
      | .ok message =>
        match pyGetItem message "content" with
        | .error e => .error e
        | .ok content =>
          match pyDictGetOpt data "usage" with
          | .error e => .error e
          | .ok usage =>
            match pyDictGetOpt choice "finish_reason" with
            | .error e => .error e
            | .ok fin =>
              .ok { content := content, model := model, usage := usage,
                    finish_reason := fin, provider := "openai" }

/-- Model of `CustomProvider.generate_response`, response normalisation: same
extraction as the OpenAI-style provider, provider tag `"custom"`. -/
def customGenerate (model : String) (data : Json) : Except String LLMResponseRaw :=
  match pyGetItem data "choices" with
  | .error e => .error e
  | .ok choices =>
    match pyGetIdxZero choices with
    | .error e => .error e
    | .ok choice =>
      match pyGetItem choice "message" with
      | .error e => .error e
      | .ok message =>
        match pyGetItem message "content" with
        | .error e => .error e
        | .ok content =>
          match pyDictGetOpt data "usage" with
          | .error e => .error e
          | .ok usage =>
            match pyDictGetOpt choice "finish_reason" with
            | .error e => .error e
            | .ok fin =>
              .ok { content := content, model := model, usage := usage,
                    finish_reason := fin, provider := "custom" }

/-- The Anthropic-style outgoing payload: `system` is `Option` because
the `"system"` key is only added when the extracted system message is
non-empty (`if system_message:`). -/
structure AnthropicPayload where
  model : String
  max_tokens : Int
  temperature : ℚ
  messages : List Message
  system : Option String
deriving Repr, DecidableEq

/-- One iteration of the conversion loop of
`AnthropicProvider.generate_response`: a system-role message overwrites
the collected `system_message`, a user- or assistant-role message is
appended to `user_messages`, anything else is ignored. -/
def anthropicFoldStep (acc : String × List String) (m : Message) :
    String × List String :=
  if m.role = "system" then (m.content, acc.2)
  else if m.role = "user" then (acc.1, acc.2 ++ [m.content])
  else if m.role = "assistant" then (acc.1, acc.2 ++ [m.content])
  else acc

/-- Model of `AnthropicProvider.generate_response`, payload assembly from the
loop state: a single user turn joined with blank lines, plus the
`"system"` entry only when the collected system message is truthy. -/
def anthropicBuildPayload (model : String) (max_tokens : Int)
    (temperature : ℚ) (messages : List Message) : AnthropicPayload :=
  let st := messages.foldl anthropicFoldStep ("", [])
  { model := model, max_tokens := max_tokens, temperature := temperature,
    messages := [⟨"user", String.intercalate "\n\n" st.2⟩],
    system := if st.1 = "" then none else some st.1 }

/-- Model of `AnthropicProvider.generate_response`, response normalisation:
`content = data["content"][0]["text"]`,
`usage=data.get("usage")`, `finish_reason=data.get("stop_reason")`. -/
def anthropicGenerate (model : String) (data : Json) : Except String LLMResponseRaw :=
  match pyGetItem data "content" with
  | .error e => .error e
  | .ok contentArr =>
    match pyGetIdxZero contentArr with
    | .error e => .error e
    | .ok c0 =>
      match pyGetItem c0 "text" with
      | .error e => .error e
      | .ok text =>
        match pyDictGetOpt data "usage" with
        | .error e => .error e
        | .ok usage =>
          match pyDictGetOpt data "stop_reason" with
          | .error e => .error e
          | .ok stop =>
            .ok { content := text, model := model, usage := usage,
                  finish_reason := stop, provider := "anthropic" }

/-- One decoded line delivered by `response.iter_lines()` during
OpenAI-style streaming, paired with the outcome `json.loads` would give
on its `data: ` payload: `parsed = none` models a `json.JSONDecodeError`,
`parsed = some j` a successful parse to `j`.  (`parsed` is only
consulted on non-empty lines carrying the `data: ` marker whose payload
is not the terminator.) -/
structure SSELine where
  text : String
  parsed : Option Json
deriving Repr

/-- The body of the `if 'choices' in json_data and ...` block of
`OpenAIProvider.stream_response`:
`delta = json_data['choices'][0].get('delta', {})`; the fragment
`delta['content']` is produced when present.  Dynamically ill-shaped
JSON raises (`TypeError`/`AttributeError`/...), which the generator
does not catch. -/
def extractDeltaContent (json_data : Json) : Except String (Option Json) :=
  match pyContains json_data "choices" with
  | .error e => .error e
  | .ok hasChoices =>
    if hasChoices then
      match pyGetItem json_data "choices" with
      | .error e => .error e
      | .ok choices =>
        match pyLen choices with
        | .error e => .error e
        | .ok n =>
          if n > 0 then
            match pyGetItem json_data "choices" with
            | .error e => .error e
            | .ok choicesAgain =>
              match pyGetIdxZero choicesAgain with
              | .error e => .error e
              | .ok first =>
                match pyDictGet first "delta" (.obj []) with
                | .error e => .error e
                | .ok delta =>
                  match pyContains delta "content" with
                  | .error e => .error e
                  | .ok hasContent =>
                    if hasContent then
                      match pyGetItem delta "content" with
                      | .error e => .error e
                      | .ok c => .ok (some c)
                    else .ok none
          else .ok none
    else .ok none

/-- Model of `OpenAIProvider.stream_response`, line loop: empty lines are
skipped (`if line:`), lines without the `data: ` marker are skipped,
a payload stripping to `[DONE]` breaks the loop, a payload that fails
JSON decoding is skipped (`continue`), and otherwise the delta content
(when present) is yielded.  The result collects the yielded fragments;
`.error` is an exception escaping the generator. -/
def openaiStreamFragments : List SSELine → Except String (List Json)
  | [] => .ok []
  | ⟨text, parsed⟩ :: rest =>
    if text = "" then openaiStreamFragments rest
    else if strStartsWith text "data: " then
      let data := strDrop text 6
      if strTrim data = "[DONE]" then .ok []
      else
        match parsed with
        | none => openaiStreamFragments rest
        | some j =>
            match extractDeltaContent j with
            | .error e => .error e
            | .ok frag =>
              match openaiStreamFragments rest with
              | .error e => .error e
              | .ok tail =>
                match frag with
                | some c => .ok (c :: tail)
                | none => .ok tail
    else openaiStreamFragments rest

/-- Model of `AnthropicProvider.stream_response`: a full blocking
`generate_response` call is made first (its exception, if any,
propagates), then `response.content.split()` is replayed word by word
with a trailing space.  The argument is the outcome of the inner
`generate_response` call. -/
def anthropicStreamSim (gen : CallOutcome LLMResponse) : CallOutcome (List String) :=
  match gen with
  | .raised m => .raised m
  | .ok resp => .ok ((pyStrSplit resp.content).map (fun w => w ++ " "))

/-- Model of `CustomProvider.stream_response`: identical simulated streaming. -/
def customStreamSim (gen : CallOutcome LLMResponse) : CallOutcome (List String) :=
  match gen with
  | .raised m => .raised m
  | .ok resp => .ok ((pyStrSplit resp.content).map (fun w => w ++ " "))

/-- The `LLMConfig` pydantic model of `config.py` (fields only). -/
structure LLMConfig where
  provider : String := "openai"
  api_key : Option String := none
  model : String := "gpt-3.5-turbo"
  base_url : Option String := none
  max_tokens : Int := 1000
  temperature : ℚ := 7/10
deriving Repr, DecidableEq

/-- Model of `LLMConfig.validate_provider`: rejects any provider name outside
the supported list. -/
def validate_provider (v : String) : Except String String :=
  if v = "openai" ∨ v = "anthropic" ∨ v = "custom" then .ok v
  else .error "Provider must be one of: ['openai', 'anthropic', 'custom']"

/-- A constructed provider instance, holding exactly the state its
Python `__init__` stores (headers are determined by these fields and
are omitted). -/
inductive Provider where
  | openai (api_key model : String) (base_url : String)
      (max_tokens : Int) (temperature : ℚ)
  | anthropic (api_key model : String) (max_tokens : Int) (temperature : ℚ)
  | custom (api_key model : String) (base_url : String)
      (max_tokens : Int) (temperature : ℚ)
deriving Repr, DecidableEq

/-- The provider-name tag a `Provider` variant answers to. -/
def Provider.tag : Provider → String
  | .openai .. => "openai"
  | .anthropic .. => "anthropic"
  | .custom .. => "custom"

/-- Model of `LLMClient._create_provider`: dispatch on the configured provider
name; `custom` additionally requires a truthy `base_url` (Python
`if not provider_config.base_url` rejects both `None` and `""`);
`OpenAIProvider.__init__` stores `base_url or "https://api.openai.com/v1"`
and `CustomProvider.__init__` stores `base_url.rstrip('/')`. -/
def create_provider (cfg : LLMConfig) : Except String Provider :=
  if cfg.provider = "openai" then
    .ok (.openai (cfg.api_key.getD "") cfg.model
      (match cfg.base_url with
       | some b => if b = "" then "https://api.openai.com/v1" else b
       | none => "https://api.openai.com/v1")
      cfg.max_tokens cfg.temperature)
  else if cfg.provider = "anthropic" then
    .ok (.anthropic (cfg.api_key.getD "") cfg.model cfg.max_tokens cfg.temperature)
  else if cfg.provider = "custom" then
    match cfg.base_url with
    | none => .error "base_url is required for custom provider"
    | some b =>
        if b = "" then .error "base_url is required for custom provider"
        else .ok (.custom (cfg.api_key.getD "") cfg.model (rstripSlash b)
          cfg.max_tokens cfg.temperature)
  else .error ("Unsupported provider: " ++ cfg.provider)

/-- The fixed system instruction of `LLMClient.process_file_content`
(and, identically, of `AIAgent.stream_file_processing`). -/
def systemPromptText : String :=
  "You are a helpful AI assistant that analyzes and responds to text content provided by the user."

/-- Model of `LLMClient.process_file_content`, message construction: the fixed
system instruction, a user turn embedding the file text, and — only
when `user_prompt` is truthy (not `None` and not `""`) — an extra user
turn with the caller-supplied prompt. -/
def process_file_content_messages (file_content : String)
    (user_prompt : Option String) : List Message :=
  let base : List Message :=
    [⟨"system", systemPromptText⟩,
     ⟨"user", "Please analyze the following text content:\n\n" ++ file_content⟩]
  match user_prompt with
  | none => base
  | some p => if p = "" then base else base ++ [⟨"user", p⟩]

/-- The empty `FileContent(file_path, "", 0, "utf-8")` the failure
branches of `agent.py` construct. -/
def emptyFileContent (path : String) : FileContent :=
  { file_path := path, content := "", file_size := 0, encoding := "utf-8" }

/-- Model of `AIAgent.process_single_file`: read the file (a `None` reader
result yields the `"Failed to read file"` failure), call
`process_file_content`, and wrap the outcome; any exception from the
read or the LLM call is caught by the surrounding `except Exception`
and becomes a failure result with message
`f"Error processing {file_path}: {str(e)}"`.  `read` and `llm` are the
outcomes of the two external calls, `elapsed` the wall-clock delta. -/
def process_single_file (file_path : String) (read : ReadOutcome)
    (llm : CallOutcome LLMResponse) (elapsed : Nat) : ProcessingResult :=
  match read with
  | .raised m =>
      { file_path := file_path, file_content := emptyFileContent file_path,
        llm_response := none, processing_time := elapsed, success := false,
        error_message := some ("Error processing " ++ file_path ++ ": " ++ m) }
  | .failed =>
      { file_path := file_path, file_content := emptyFileContent file_path,
        llm_response := none, processing_time := elapsed, success := false,
        error_message := some "Failed to read file" }
  | .ok fc =>
      match llm with
      | .ok resp =>
          { file_path := file_path, file_content := fc,
            llm_response := some resp, processing_time := elapsed,
            success := true, error_message := none }
      | .raised m =>
          { file_path := file_path, file_content := emptyFileContent file_path,
            llm_response := none, processing_time := elapsed, success := false,
            error_message := some ("Error processing " ++ file_path ++ ": " ++ m) }

/-- Model of `AIAgent.stream_file_processing`: a `None` reader result yields the
single fragment `"Error: Failed to read file"`; otherwise the client's
fragment stream is forwarded; any exception raised by the read, the
provider call or mid-iteration is caught by the surrounding
`except Exception` and yields `f"Error: {str(e)}"` after the fragments
already delivered.  `stream` is the list of fragments the client
delivered before either finishing (`none`) or raising (`some msg`). -/
def stream_file_processing (read : ReadOutcome)
    (stream : List String × Option String) : List String :=
  match read with
  | .raised m => ["Error: " ++ m]
  | .failed => ["Error: Failed to read file"]
  | .ok _ =>
      match stream with
      | (chunks, none) => chunks
      | (chunks, some m) => chunks ++ ["Error: " ++ m]

/-- The dictionary produced by `ProcessingResult.to_dict`. -/
structure ResultDict where
  file_path : String
  file_size : Nat
  encoding : String
  llm_response : LLMResponse
  processing_time : Nat
  success : Bool
  error_message : Option String
deriving Repr, DecidableEq

/-- Model of `ProcessingResult.to_dict`: evaluates `self.llm_response.to_dict()`
unconditionally — when `llm_response` is `None` this raises
`AttributeError` (Python `None` has no `to_dict` method).  The
`LLMResponse.to_dict` payload is field-for-field the response itself. -/
def ProcessingResult.toDict (r : ProcessingResult) : Except String ResultDict :=
  match r.llm_response with
  | none => .error "AttributeError: NoneType object has no attribute to_dict"
  | some resp =>
      .ok { file_path := r.file_path, file_size := r.file_content.file_size,
            encoding := r.file_content.encoding, llm_response := resp,
            processing_time := r.processing_time, success := r.success,
            error_message := r.error_message }

/-- The summary dictionary returned by `AIAgent.batch_process_with_summary`. -/
structure BatchSummary where
  total_files : Nat
  successful : Nat
  failed : Nat
  total_processing_time : Nat
  average_processing_time : ℚ
  total_tokens : Int
  results : List ResultDict
  errors : List String
deriving Repr, DecidableEq

/-- The per-result term of the `total_tokens` generator expression:
`r.llm_response.usage.get('total_tokens', 0)` guarded by the truthiness
check `if r.llm_response and r.llm_response.usage` (a missing usage
mapping, and the falsy empty mapping, contribute nothing). -/
def tokenContribution (r : ProcessingResult) : Int :=
  match r.llm_response with
  | some resp =>
      match resp.usage with
      | some u => if u = [] then 0 else ((u.lookup "total_tokens").getD 0)
      | none => 0
  | none => 0

/-- The list comprehension `[r.to_dict() for r in results]`: renders
results left to right, the first exception aborting the whole list. -/
def toDictAll : List ProcessingResult → Except String (List ResultDict)
  | [] => .ok []
  | r :: rs =>
      match r.toDict with
      | .error e => .error e
      | .ok d =>
          match toDictAll rs with
          | .error e => .error e
          | .ok ds => .ok (d :: ds)

/-- Model of `AIAgent.batch_process_with_summary`, aggregation over the already
collected per-file results: partitions by `success`, sums times and
token counts, renders every result through `to_dict` (where a failed
result raises `AttributeError`, aborting the whole summary), and lists
the truthy error messages of the failed results. -/
def batch_process_with_summary (results : List ProcessingResult) :
    Except String BatchSummary :=
  let successful_results := results.filter (fun r => r.success)
  let failed_results := results.filter (fun r => !r.success)
  let total_processing_time := (results.map (fun r => r.processing_time)).sum
  let total_tokens := (successful_results.map tokenContribution).sum
  match toDictAll results with
  | .error e => .error e
  | .ok dicts =>
    .ok { total_files := results.length,
           successful := successful_results.length,
           failed := failed_results.length,
           total_processing_time := total_processing_time,
           average_processing_time :=
             if results.length = 0 then 0
             else (total_processing_time : ℚ) / (results.length : ℚ),
           total_tokens := total_tokens,
           results := dicts,
           errors := (failed_results.filterMap (fun r => r.error_message)).filter
             (fun m => m ≠ "") }

/-- A batch run end to end: each file's external outcomes
(path, reader outcome, LLM outcome, elapsed time) flow through
`process_single_file` exactly as `process_all_files` does, and the
collected results are aggregated by `batch_process_with_summary`. -/
def batchFromOutcomes
    (inputs : List (String × ReadOutcome × CallOutcome LLMResponse × Nat)) :
    Except String BatchSummary :=
  batch_process_with_summary
    (inputs.map (fun i => process_single_file i.1 i.2.1 i.2.2.1 i.2.2.2))

/-! Spec-side definitions, written from the specification's words, to be
compared with the source-derived functions above. -/

/-- Spec-side JSON field access: the value under `key` when `j` is an
object carrying it. -/
def jField (j : Json) (key : String) : Option Json :=
  match j with
  | .obj kvs => (kvs.find? (fun kv => kv.1 == key)).map Prod.snd
  | _ => none

/-- Spec-side first element of a JSON array. -/
def jHead : Json → Option Json
  | .arr (x :: _) => some x
  | _ => none

/-- Spec-side "expected content path" of an OpenAI-style / Custom chat
response: `choices[0].message.content`. -/
def openaiContentPath (data : Json) : Option Json :=
  ((jField data "choices").bind jHead).bind
    (fun c => (jField c "message").bind (fun m => jField m "content"))

/-- Spec-side "expected content path" of an Anthropic-style response:
`content[0].text`. -/
def anthropicContentPath (data : Json) : Option Json :=
  ((jField data "content").bind jHead).bind (fun c => jField c "text")

/-- Spec-side reading of the Anthropic payload conversion: the contents
of the user- and assistant-role messages, in order. -/
def specUserContents (messages : List Message) : List String :=
  (messages.filter (fun m => m.role = "user" ∨ m.role = "assistant")).map
    (fun m => m.content)

/-- Spec-side reading of the extracted system instruction: the content
of the last system-role message, defaulting to the empty string. -/
def specLastSystem (messages : List Message) : String :=
  (((messages.filter (fun m => m.role = "system")).map
    (fun m => m.content)).getLast?).getD ""

end MarketingAgent

namespace MarketingAgent

/-- Strings produced by `f"Error processing {file_path}: {str(e)}"` are
never empty. -/
theorem error_processing_msg_ne_empty (p m : String) :
    ("Error processing " ++ p ++ ": " ++ m) ≠ "" := by
  intro h
  have hd := congrArg String.data h
  simp [String.data_append] at hd

/-- C1: `AIAgent.process_single_file` returns normally on every
combination of read outcome and LLM-call outcome (it is a total
function of them), its result satisfies `success = true` iff
`llm_response` is present, and whenever `llm_response` is absent the
`error_message` is a non-empty string. -/
theorem C1_process_single_file_invariant (path : String) (read : ReadOutcome)
    (llm : CallOutcome LLMResponse) (elapsed : Nat) :
    ((process_single_file path read llm elapsed).success = true ↔
      (process_single_file path read llm elapsed).llm_response.isSome) ∧
    ((process_single_file path read llm elapsed).llm_response = none →
      ∃ m, (process_single_file path read llm elapsed).error_message = some m ∧
        m ≠ "") := by
  cases read with
  | ok fc =>
      cases llm with
      | ok resp => simp [process_single_file]
      | raised m =>
          refine ⟨by simp [process_single_file], fun _ => ?_⟩
          exact ⟨_, by simp [process_single_file], error_processing_msg_ne_empty path m⟩
  | failed =>
      refine ⟨by simp [process_single_file], fun _ => ?_⟩
      exact ⟨"Failed to read file", by simp [process_single_file], by decide⟩
  | raised m =>
      refine ⟨by simp [process_single_file], fun _ => ?_⟩
      exact ⟨_, by simp [process_single_file], error_processing_msg_ne_empty path m⟩

/-- C1 witness: concrete instance at a failing read — the result has no
response and carries a non-empty error message. -/
theorem C1_witness :
    (process_single_file "a.txt" ReadOutcome.failed
      (CallOutcome.raised "boom") 2).llm_response = none ∧
    ∃ m, (process_single_file "a.txt" ReadOutcome.failed
      (CallOutcome.raised "boom") 2).error_message = some m ∧ m ≠ "" :=
  ⟨rfl, (C1_process_single_file_invariant "a.txt" ReadOutcome.failed
      (CallOutcome.raised "boom") 2).2 rfl⟩

/-- C8: `AIAgent.stream_file_processing` is total in the outcomes of
the read and of the fragment stream (no exception propagates): a `None`
read yields exactly `["Error: Failed to read file"]`, an exception from
the read yields a single error fragment, a clean stream is forwarded
unchanged, and an exception during the provider call or fragment
iteration appends one final error fragment after the fragments already
delivered. -/
theorem C8_stream_file_processing_isolated (read : ReadOutcome)
    (chunks : List String) :
    (read = ReadOutcome.failed →
      ∀ e, stream_file_processing read (chunks, e) =
        ["Error: Failed to read file"]) ∧
    (∀ m, read = ReadOutcome.raised m →
      ∀ e, stream_file_processing read (chunks, e) = ["Error: " ++ m]) ∧
    (∀ fc, read = ReadOutcome.ok fc →
      stream_file_processing read (chunks, none) = chunks) ∧
    (∀ fc m, read = ReadOutcome.ok fc →
      stream_file_processing read (chunks, some m) =
        chunks ++ ["Error: " ++ m]) := by
  refine ⟨fun h e => ?_, fun m h e => ?_, fun fc h => ?_, fun fc m h => ?_⟩ <;>
    subst h <;> simp [stream_file_processing]

/-- C8 witness: concrete instances — a failed read, and a stream that
raises after one fragment. -/
theorem C8_witness :
    stream_file_processing ReadOutcome.failed (["x"], none) =
      ["Error: Failed to read file"] ∧
    stream_file_processing (ReadOutcome.ok (emptyFileContent "a.txt"))
      (["Hel", "lo"], some "timeout") = ["Hel", "lo", "Error: timeout"] :=
  ⟨(C8_stream_file_processing_isolated ReadOutcome.failed ["x"]).1 rfl none,
   (C8_stream_file_processing_isolated (ReadOutcome.ok (emptyFileContent "a.txt"))
      ["Hel", "lo"]).2.2.2 (emptyFileContent "a.txt") "timeout" rfl⟩

/-- C5: the Anthropic-style and Custom `stream_response` first obtain
the full `generate_response` content and then emit exactly the
whitespace-delimited tokens of that content, in order, each with one
trailing space; content `"Hello world"` produces `["Hello ", "world "]`
for both variants. -/
theorem C5_simulated_streaming (gen : CallOutcome LLMResponse) :
    (∀ resp, gen = CallOutcome.ok resp →
      anthropicStreamSim gen =
        CallOutcome.ok ((pyStrSplit resp.content).map (fun w => w ++ " ")) ∧
      customStreamSim gen =
        CallOutcome.ok ((pyStrSplit resp.content).map (fun w => w ++ " "))) ∧
    (∀ resp, resp.content = "Hello world" → gen = CallOutcome.ok resp →
      anthropicStreamSim gen = CallOutcome.ok ["Hello ", "world "] ∧
      customStreamSim gen = CallOutcome.ok ["Hello ", "world "]) := by
  constructor
  · rintro resp rfl
    exact ⟨rfl, rfl⟩
  · rintro resp hc rfl
    constructor <;> simp [anthropicStreamSim, customStreamSim, hc] <;>
      decide

/-- C5 witness: concrete instance — a completed generate call whose
content is `"Hello world"` streams as `["Hello ", "world "]`. -/
theorem C5_witness :
    anthropicStreamSim (CallOutcome.ok
      { content := "Hello world", model := "m" }) =
      CallOutcome.ok ["Hello ", "world "] ∧
    customStreamSim (CallOutcome.ok
      { content := "Hello world", model := "m" }) =
      CallOutcome.ok ["Hello ", "world "] :=
  (C5_simulated_streaming (CallOutcome.ok
      { content := "Hello world", model := "m" })).2
    { content := "Hello world", model := "m" } rfl rfl

/-- C7: `LLMClient._create_provider` fails with the unsupported-provider
error (constructing nothing) for any provider name outside
`{openai, anthropic, custom}` — as does the `LLMConfig` validator —
fails with the missing-base-URL error when the provider is `custom` and
the base URL is absent or empty, and otherwise returns exactly one
provider instance whose variant tag matches the configured name. -/
theorem C7_create_provider_dispatch (cfg : LLMConfig) :
    (cfg.provider ≠ "openai" → cfg.provider ≠ "anthropic" →
      cfg.provider ≠ "custom" →
      create_provider cfg = .error ("Unsupported provider: " ++ cfg.provider) ∧
      validate_provider cfg.provider =
        .error "Provider must be one of: ['openai', 'anthropic', 'custom']") ∧
    (cfg.provider = "custom" → (cfg.base_url = none ∨ cfg.base_url = some "") →
      create_provider cfg = .error "base_url is required for custom provider") ∧
    (cfg.provider = "openai" →
      ∃ p, create_provider cfg = .ok p ∧ p.tag = "openai") ∧
    (cfg.provider = "anthropic" →
      ∃ p, create_provider cfg = .ok p ∧ p.tag = "anthropic") ∧
    (∀ b, cfg.provider = "custom" → cfg.base_url = some b → b ≠ "" →
      ∃ p, create_provider cfg = .ok p ∧ p.tag = "custom") := by
  refine ⟨fun h1 h2 h3 => ⟨?_, ?_⟩, fun hc hb => ?_, fun h => ?_, fun h => ?_,
    fun b hc hb hne => ?_⟩
  · simp [create_provider, h1, h2, h3]
  · simp [validate_provider, h1, h2, h3]
  · rcases hb with hb | hb <;> simp [create_provider, hc, hb]
  · refine ⟨Provider.openai (cfg.api_key.getD "") cfg.model
      (match cfg.base_url with
       | some b => if b = "" then "https://api.openai.com/v1" else b
       | none => "https://api.openai.com/v1") cfg.max_tokens cfg.temperature,
      ?_, rfl⟩
    simp [create_provider, h]
  · refine ⟨Provider.anthropic (cfg.api_key.getD "") cfg.model
      cfg.max_tokens cfg.temperature, ?_, rfl⟩
    simp [create_provider, h]
  · refine ⟨Provider.custom (cfg.api_key.getD "") cfg.model (rstripSlash b)
      cfg.max_tokens cfg.temperature, ?_, rfl⟩
    simp [create_provider, hc, hb, hne]

/-- C7 witness: concrete instances — the provider name `"foo"` is
rejected, a `custom` configuration without base URL is rejected, and an
`openai` configuration constructs an `openai`-tagged provider. -/
theorem C7_witness :
    create_provider { provider := "foo" } = .error "Unsupported provider: foo" ∧
    create_provider { provider := "custom", base_url := none } =
      .error "base_url is required for custom provider" ∧
    ∃ p, create_provider { provider := "openai" } = .ok p ∧ p.tag = "openai" :=
  ⟨((C7_create_provider_dispatch { provider := "foo" }).1
      (by decide) (by decide) (by decide)).1,
   (C7_create_provider_dispatch
      { provider := "custom", base_url := none }).2.1 rfl (Or.inl rfl),
   (C7_create_provider_dispatch { provider := "openai" }).2.2.1 rfl⟩

/-- The second component of the conversion-loop state collects, after
the user/assistant contents already seen, exactly the contents of the
user- and assistant-role messages in order. -/
theorem anthropicFold_snd (msgs : List Message) :
    ∀ (s : String) (us : List String),
      (msgs.foldl anthropicFoldStep (s, us)).2 = us ++ specUserContents msgs := by
  induction msgs with
  | nil => intro s us; simp [specUserContents]
  | cons m rest ih =>
      intro s us
      by_cases h1 : m.role = "system"
      · rw [List.foldl_cons]
        simp only [anthropicFoldStep, h1, if_true]
        rw [ih]
        simp [specUserContents, List.filter_cons, h1]
      · by_cases h2 : m.role = "user"
        · rw [List.foldl_cons]
          simp only [anthropicFoldStep, h1, h2, if_false, if_true]
          rw [ih]
          simp [specUserContents, List.filter_cons, h2]
        · by_cases h3 : m.role = "assistant"
          · rw [List.foldl_cons]
            simp only [anthropicFoldStep, h1, h2, h3, if_false, if_true]
            rw [ih]
            simp [specUserContents, List.filter_cons, h3]
          · rw [List.foldl_cons]
            simp only [anthropicFoldStep, h1, h2, h3, if_false]
            rw [ih]
            simp [specUserContents, List.filter_cons, h1, h2, h3]

/-- Rewriting `Option.getD` after consing onto `getLast?`: the default only
matters for the empty list. -/
theorem getLast?_cons_getD (a s : String) (l : List String) :
    ((a :: l).getLast?).getD s = (l.getLast?).getD a := by
  cases l with
  | nil => simp
  | cons b t =>
      rw [List.getLast?_cons_cons]
      have h : (b :: t).getLast?.isSome := by
        simp [List.getLast?_isSome]
      obtain ⟨x, hx⟩ := Option.isSome_iff_exists.mp h
      rw [hx]
      simp

/-- The first component of the conversion-loop state is the content of
the last system-role message, defaulting to the seed. -/
theorem anthropicFold_fst (msgs : List Message) :
    ∀ (s : String) (us : List String),
      (msgs.foldl anthropicFoldStep (s, us)).1 =
        ((((msgs.filter (fun m => m.role = "system")).map
          (fun m => m.content)).getLast?).getD s) := by
  induction msgs with
  | nil => intro s us; simp
  | cons m rest ih =>
      intro s us
      by_cases h1 : m.role = "system"
      · rw [List.foldl_cons]
        simp only [anthropicFoldStep, h1, if_true]
        rw [ih]
        simp only [List.filter_cons, h1]
        simp [getLast?_cons_getD]
      · by_cases h2 : m.role = "user"
        · rw [List.foldl_cons]
          simp only [anthropicFoldStep, h1, h2, if_false, if_true]
          rw [ih]
          simp [List.filter_cons, h1]
        · by_cases h3 : m.role = "assistant"
          · rw [List.foldl_cons]
            simp only [anthropicFoldStep, h1, h2, h3, if_false, if_true]
            rw [ih]
            simp [List.filter_cons, h1]
          · rw [List.foldl_cons]
            simp only [anthropicFoldStep, h1, h2, h3, if_false]
            rw [ih]
            simp [List.filter_cons, h1]

/-- C3 counterexample: for the message list
`[{system, ""}, {user, "A"}]` there is a system-role message, yet the
outgoing payload carries no top-level `system` entry at all (the code
guards the entry with the truthiness of the collected content, so an
empty system message is dropped), refuting the claim that the content
of the system-role message always appears as a separate top-level
`system` field. -/
theorem C3_counterexample :
    ¬ ((anthropicBuildPayload "m" 1000 1
        [⟨"system", ""⟩, ⟨"user", "A"⟩]).system = some "") := by
  have h : (anthropicBuildPayload "m" 1000 1
      [⟨"system", ""⟩, ⟨"user", "A"⟩]).system = none := rfl
  simp [h]

/-- C3 (amended): the Anthropic-style payload carries a single user
turn whose content is the user- and assistant-role contents, in order,
joined with blank-line separators; the content of the last system-role
message appears as a separate top-level `system` entry when it is
non-empty, and otherwise (no system message, or an empty one) the entry
is absent.  In particular `[{system,"S"},{user,"A"},{user,"B"}]`
produces `system="S"` and the single user content `"A\n\nB"`. -/
theorem C3_anthropic_payload (model : String) (max_tokens : Int)
    (temperature : ℚ) (msgs : List Message) :
    ((anthropicBuildPayload model max_tokens temperature msgs).messages =
      [⟨"user", String.intercalate "\n\n" (specUserContents msgs)⟩] ∧
     (anthropicBuildPayload model max_tokens temperature msgs).system =
      (if specLastSystem msgs = "" then none else some (specLastSystem msgs))) ∧
    ((anthropicBuildPayload "m" 1000 1
        [⟨"system", "S"⟩, ⟨"user", "A"⟩, ⟨"user", "B"⟩]).system = some "S" ∧
     (anthropicBuildPayload "m" 1000 1
        [⟨"system", "S"⟩, ⟨"user", "A"⟩, ⟨"user", "B"⟩]).messages =
      [⟨"user", "A\n\nB"⟩]) := by
  refine ⟨⟨?_, ?_⟩, ?_, ?_⟩
  · simp only [anthropicBuildPayload]
    rw [anthropicFold_snd msgs "" []]
    simp
  · simp only [anthropicBuildPayload]
    rw [anthropicFold_fst msgs "" []]
    simp [specLastSystem]
  · rfl
  · rfl

/-- C9 counterexample: the Custom provider's request body carries no
`stream` key at all, refuting the claim that its keys are exactly
`{model, messages, max_tokens, temperature, stream}`. -/
theorem C9_counterexample :
    ¬ ("stream" ∈ (customPayload "m" [] 1000 1).map Prod.fst) := by
  decide

/-- C9 (amended): the Custom provider posts to
`{base_url}/chat/completions` (base URL stripped of trailing slashes)
with a JSON body whose keys are exactly
`{model, messages, max_tokens, temperature}` — the OpenAI-style body
minus its `stream` entry, the shared keys built identically. -/
theorem C9_custom_payload (model : String) (msgs : List Message)
    (max_tokens : Int) (temperature : ℚ) (base_url : String) :
    (customPayload model msgs max_tokens temperature).map Prod.fst =
      ["model", "messages", "max_tokens", "temperature"] ∧
    customPayload model msgs max_tokens temperature =
      (openaiPayload model msgs max_tokens temperature).filter
        (fun kv => kv.1 ≠ "stream") ∧
    customUrl base_url = rstripSlash base_url ++ "/chat/completions" := by
  refine ⟨?_, ?_, rfl⟩
  · simp [customPayload]
  · simp [customPayload, openaiPayload]

/-- C10: `LLMClient.process_file_content` builds exactly the two fixed
messages when `user_prompt` is `None` or the empty string (an empty
prompt contributes no third turn), and exactly three messages when the
prompt is non-empty. -/
theorem C10_process_file_content_messages (fc : String)
    (up : Option String) :
    ((up = none ∨ up = some "") →
      process_file_content_messages fc up =
        [⟨"system", systemPromptText⟩,
         ⟨"user", "Please analyze the following text content:\n\n" ++ fc⟩] ∧
      (process_file_content_messages fc up).length = 2) ∧
    (∀ p, up = some p → p ≠ "" →
      process_file_content_messages fc up =
        [⟨"system", systemPromptText⟩,
         ⟨"user", "Please analyze the following text content:\n\n" ++ fc⟩,
         ⟨"user", p⟩] ∧
      (process_file_content_messages fc up).length = 3) := by
  constructor
  · rintro (h | h) <;> subst h <;> simp [process_file_content_messages]
  · rintro p rfl hp
    simp [process_file_content_messages, hp]

/-- C2: evaluation of `batch_process_with_summary` at concrete inputs.
First conjunct — the failing input: a batch containing one failed file
(here a read failure; `process_single_file` stores `llm_response=None`)
makes the summary construction raise `AttributeError` inside
`ProcessingResult.to_dict` (`self.llm_response.to_dict()` on `None`),
so no summary with `failed=K` is ever returned for `K ≥ 1`, contrary to
the claimed (and spec-stated) aggregate report.  Second conjunct — with
`K = 0` the summary is produced and its counts and error list are as
the claim states. -/
theorem C2_batch_summary_crash_on_failure :
    batchFromOutcomes
      [("a.txt", ReadOutcome.failed, CallOutcome.raised "x", 1)] =
      .error "AttributeError: NoneType object has no attribute to_dict" ∧
    (∃ s, batchFromOutcomes
      [("a.txt",
        ReadOutcome.ok
          { file_path := "a.txt", content := "A", file_size := 1,
            encoding := "utf-8" },
        CallOutcome.ok
          { content := "r1", model := "m",
            usage := some [("total_tokens", 10)] }, 1),
       ("b.txt",
        ReadOutcome.ok
          { file_path := "b.txt", content := "B", file_size := 1,
            encoding := "utf-8" },
        CallOutcome.ok { content := "r2", model := "m" }, 3)] = .ok s ∧
      s.total_files = 2 ∧ s.successful = 2 ∧ s.failed = 0 ∧
      s.total_tokens = 10 ∧ s.errors = []) :=
  ⟨rfl, ⟨_, rfl, rfl, rfl, rfl, rfl, rfl⟩⟩

/-- C4: in the OpenAI-style SSE loop, a `data: `-marked line whose
payload parses to JSON carrying a `choices[0].delta.content` field
contributes exactly that fragment in front of the rest of the stream,
a `data: `-marked line with malformed JSON is silently skipped without
ending the stream, and a payload stripping to the literal `[DONE]`
terminates the sequence regardless of what follows. -/
theorem C4_openai_stream_sse :
    (∀ (t : String) (j c : Json) (rest : List SSELine) (tail : List Json),
      strStartsWith t "data: " = true →
      strTrim (strDrop t 6) ≠ "[DONE]" →
      extractDeltaContent j = .ok (some c) →
      openaiStreamFragments rest = .ok tail →
      openaiStreamFragments (⟨t, some j⟩ :: rest) = .ok (c :: tail)) ∧
    (∀ (t : String) (rest : List SSELine),
      strStartsWith t "data: " = true →
      strTrim (strDrop t 6) ≠ "[DONE]" →
      openaiStreamFragments (⟨t, none⟩ :: rest) = openaiStreamFragments rest) ∧
    (∀ (t : String) (p : Option Json) (rest : List SSELine),
      strStartsWith t "data: " = true →
      strTrim (strDrop t 6) = "[DONE]" →
      openaiStreamFragments (⟨t, p⟩ :: rest) = .ok []) := by
  have hne : ∀ t : String, strStartsWith t "data: " = true → ¬(t = "") := by
    intro t h he
    rw [he] at h
    exact absurd h (by decide)
  refine ⟨fun t j c rest tail hstart hdone hext htail => ?_,
    fun t rest hstart hdone => ?_, fun t p rest hstart hdone => ?_⟩
  · simp only [openaiStreamFragments]
    rw [if_neg (hne t hstart), if_pos hstart, if_neg hdone, hext, htail]
  · simp only [openaiStreamFragments]
    rw [if_neg (hne t hstart), if_pos hstart, if_neg hdone]
  · simp only [openaiStreamFragments]
    rw [if_neg (hne t hstart), if_pos hstart, if_pos hdone]

/-- C4 witness: the two SSE lines
`data: {"choices":[{"delta":{"content":"Hi"}}]}` and `data: [DONE]`
produce exactly the fragment sequence `["Hi"]` and then terminate. -/
theorem C4_witness :
    openaiStreamFragments
      [⟨"data: \x7b\"choices\":[\x7b\"delta\":\x7b\"content\":\"Hi\"\x7d\x7d]\x7d",
        some (Json.obj [("choices", Json.arr
          [Json.obj [("delta", Json.obj [("content", Json.str "Hi")])]])])⟩,
       ⟨"data: [DONE]", none⟩] = .ok [Json.str "Hi"] :=
  C4_openai_stream_sse.1
    "data: \x7b\"choices\":[\x7b\"delta\":\x7b\"content\":\"Hi\"\x7d\x7d]\x7d"
    (Json.obj [("choices", Json.arr
      [Json.obj [("delta", Json.obj [("content", Json.str "Hi")])]])])
    (Json.str "Hi") [⟨"data: [DONE]", none⟩] [] (by decide) (by decide) rfl
    (C4_openai_stream_sse.2.2 "data: [DONE]" none [] (by decide) (by decide))

/-- Python `j.get(k)` on a dict never raises: it returns the optional value
under `k`. -/
theorem pyDictGetOpt_obj (kvs : List (String × Json)) (k : String) :
    pyDictGetOpt (.obj kvs) k =
      .ok ((kvs.find? (fun kv => kv.1 == k)).map (fun kv => kv.2)) := by
  cases hf : kvs.find? (fun kv => kv.1 == k) <;>
    simp [pyDictGetOpt, hf]

/-- Lemma: `OpenAIProvider.generate_response` succeeds exactly when the
expected content path `choices[0].message.content` is present in the
response JSON, and then returns that content. -/
theorem openaiGenerate_ok_iff (model : String) (data : Json) :
    ((∃ r, openaiGenerate model data = .ok r) ↔
      (openaiContentPath data).isSome) ∧
    (∀ r, openaiGenerate model data = .ok r →
      openaiContentPath data = some r.content) := by
  cases data with
  | null => simp [openaiGenerate, pyGetItem, openaiContentPath, jField]
  | bool b => simp [openaiGenerate, pyGetItem, openaiContentPath, jField]
  | num n => simp [openaiGenerate, pyGetItem, openaiContentPath, jField]
  | str s => simp [openaiGenerate, pyGetItem, openaiContentPath, jField]
  | arr xs => simp [openaiGenerate, pyGetItem, openaiContentPath, jField]
  | obj kvs =>
      cases hfind : kvs.find? (fun kv => kv.1 == "choices") with
      | none =>
          simp [openaiGenerate, pyGetItem, hfind, openaiContentPath, jField]
      | some kv =>
          obtain ⟨ck, cv⟩ := kv
          cases cv with
          | null =>
              simp [openaiGenerate, pyGetItem, pyGetIdxZero, hfind,
                openaiContentPath, jField, jHead]
          | bool b =>
              simp [openaiGenerate, pyGetItem, pyGetIdxZero, hfind,
                openaiContentPath, jField, jHead]
          | num n =>
              simp [openaiGenerate, pyGetItem, pyGetIdxZero, hfind,
                openaiContentPath, jField, jHead]
          | obj okvs =>
              simp [openaiGenerate, pyGetItem, pyGetIdxZero, hfind,
                openaiContentPath, jField, jHead]
          | str s =>
              cases hs : s.data with
              | nil =>
                  simp [openaiGenerate, pyGetItem, pyGetIdxZero, hs, hfind,
                    openaiContentPath, jField, jHead]
              | cons c cs =>
                  simp [openaiGenerate, pyGetItem, pyGetIdxZero, hs, hfind,
                    openaiContentPath, jField, jHead]
          | arr xs =>
              cases xs with
              | nil =>
                  simp [openaiGenerate, pyGetItem, pyGetIdxZero, hfind,
                    openaiContentPath, jField, jHead]
              | cons x xs' =>
                  cases x with
                  | null =>
                      simp [openaiGenerate, pyGetItem, pyGetIdxZero, hfind,
                        openaiContentPath, jField, jHead]
                  | bool b =>
                      simp [openaiGenerate, pyGetItem, pyGetIdxZero, hfind,
                        openaiContentPath, jField, jHead]
                  | num n =>
                      simp [openaiGenerate, pyGetItem, pyGetIdxZero, hfind,
                        openaiContentPath, jField, jHead]
                  | str s2 =>
                      simp [openaiGenerate, pyGetItem, pyGetIdxZero, hfind,
                        openaiContentPath, jField, jHead]
                  | arr ys =>
                      simp [openaiGenerate, pyGetItem, pyGetIdxZero, hfind,
                        openaiContentPath, jField, jHead]
                  | obj ckvs =>
                      cases hm : ckvs.find? (fun kv => kv.1 == "message") with
                      | none =>
                          simp [openaiGenerate, pyGetItem, pyGetIdxZero, hfind,
                            hm, openaiContentPath, jField, jHead]
                      | some mkv =>
                          obtain ⟨mk, mv⟩ := mkv
                          cases mv with
                          | null =>
                              simp [openaiGenerate, pyGetItem, pyGetIdxZero,
                                hfind, hm, openaiContentPath, jField, jHead]
                          | bool b =>
                              simp [openaiGenerate, pyGetItem, pyGetIdxZero,
                                hfind, hm, openaiContentPath, jField, jHead]
                          | num n =>
                              simp [openaiGenerate, pyGetItem, pyGetIdxZero,
                                hfind, hm, openaiContentPath, jField, jHead]
                          | str s3 =>
                              simp [openaiGenerate, pyGetItem, pyGetIdxZero,
                                hfind, hm, openaiContentPath, jField, jHead]
                          | arr ys =>
                              simp [openaiGenerate, pyGetItem, pyGetIdxZero,
                                hfind, hm, openaiContentPath, jField, jHead]
                          | obj mkvs =>
                              cases hc : mkvs.find? (fun kv => kv.1 == "content") with
                              | none =>
                                  simp [openaiGenerate, pyGetItem, pyGetIdxZero,
                                    hfind, hm, hc, openaiContentPath, jField, jHead]
                              | some ckv2 =>
                                  simp [openaiGenerate, pyGetItem, pyGetIdxZero,
                                    pyDictGetOpt_obj, hfind, hm, hc,
                                    openaiContentPath, jField, jHead]

/-- Lemma: `CustomProvider.generate_response` succeeds exactly when the
expected content path `choices[0].message.content` is present in the
response JSON, and then returns that content. -/
theorem customGenerate_ok_iff (model : String) (data : Json) :
    ((∃ r, customGenerate model data = .ok r) ↔
      (openaiContentPath data).isSome) ∧
    (∀ r, customGenerate model data = .ok r →
      openaiContentPath data = some r.content) := by
  cases data with
  | null => simp [customGenerate, pyGetItem, openaiContentPath, jField]
  | bool b => simp [customGenerate, pyGetItem, openaiContentPath, jField]
  | num n => simp [customGenerate, pyGetItem, openaiContentPath, jField]
  | str s => simp [customGenerate, pyGetItem, openaiContentPath, jField]
  | arr xs => simp [customGenerate, pyGetItem, openaiContentPath, jField]
  | obj kvs =>
      cases hfind : kvs.find? (fun kv => kv.1 == "choices") with
      | none =>
          simp [customGenerate, pyGetItem, hfind, openaiContentPath, jField]
      | some kv =>
          obtain ⟨ck, cv⟩ := kv
          cases cv with
          | null =>
              simp [customGenerate, pyGetItem, pyGetIdxZero, hfind,
                openaiContentPath, jField, jHead]
          | bool b =>
              simp [customGenerate, pyGetItem, pyGetIdxZero, hfind,
                openaiContentPath, jField, jHead]
          | num n =>
              simp [customGenerate, pyGetItem, pyGetIdxZero, hfind,
                openaiContentPath, jField, jHead]
          | obj okvs =>
              simp [customGenerate, pyGetItem, pyGetIdxZero, hfind,
                openaiContentPath, jField, jHead]
          | str s =>
              cases hs : s.data with
              | nil =>
                  simp [customGenerate, pyGetItem, pyGetIdxZero, hs, hfind,
                    openaiContentPath, jField, jHead]
              | cons c cs =>
                  simp [customGenerate, pyGetItem, pyGetIdxZero, hs, hfind,
                    openaiContentPath, jField, jHead]
          | arr xs =>
              cases xs with
              | nil =>
                  simp [customGenerate, pyGetItem, pyGetIdxZero, hfind,
                    openaiContentPath, jField, jHead]
              | cons x xs' =>
                  cases x with
                  | null =>
                      simp [customGenerate, pyGetItem, pyGetIdxZero, hfind,
                        openaiContentPath, jField, jHead]
                  | bool b =>
                      simp [customGenerate, pyGetItem, pyGetIdxZero, hfind,
                        openaiContentPath, jField, jHead]
                  | num n =>
                      simp [customGenerate, pyGetItem, pyGetIdxZero, hfind,
                        openaiContentPath, jField, jHead]
                  | str s2 =>
                      simp [customGenerate, pyGetItem, pyGetIdxZero, hfind,
                        openaiContentPath, jField, jHead]
                  | arr ys =>
                      simp [customGenerate, pyGetItem, pyGetIdxZero, hfind,
                        openaiContentPath, jField, jHead]
                  | obj ckvs =>
                      cases hm : ckvs.find? (fun kv => kv.1 == "message") with
                      | none =>
                          simp [customGenerate, pyGetItem, pyGetIdxZero, hfind,
                            hm, openaiContentPath, jField, jHead]
                      | some mkv =>
                          obtain ⟨mk, mv⟩ := mkv
                          cases mv with
                          | null =>
                              simp [customGenerate, pyGetItem, pyGetIdxZero,
                                hfind, hm, openaiContentPath, jField, jHead]
                          | bool b =>
                              simp [customGenerate, pyGetItem, pyGetIdxZero,
                                hfind, hm, openaiContentPath, jField, jHead]
                          | num n =>
                              simp [customGenerate, pyGetItem, pyGetIdxZero,
                                hfind, hm, openaiContentPath, jField, jHead]
                          | str s3 =>
                              simp [customGenerate, pyGetItem, pyGetIdxZero,
                                hfind, hm, openaiContentPath, jField, jHead]
                          | arr ys =>
                              simp [customGenerate, pyGetItem, pyGetIdxZero,
                                hfind, hm, openaiContentPath, jField, jHead]
                          | obj mkvs =>
                              cases hc : mkvs.find? (fun kv => kv.1 == "content") with
                              | none =>
                                  simp [customGenerate, pyGetItem, pyGetIdxZero,
                                    hfind, hm, hc, openaiContentPath, jField, jHead]
                              | some ckv2 =>
                                  simp [customGenerate, pyGetItem, pyGetIdxZero,
                                    pyDictGetOpt_obj, hfind, hm, hc,
                                    openaiContentPath, jField, jHead]

/-- Lemma: `AnthropicProvider.generate_response` succeeds exactly when the
expected content path `content[0].text` is present in the response
JSON, and then returns that content. -/
theorem anthropicGenerate_ok_iff (model : String) (data : Json) :
    ((∃ r, anthropicGenerate model data = .ok r) ↔
      (anthropicContentPath data).isSome) ∧
    (∀ r, anthropicGenerate model data = .ok r →
      anthropicContentPath data = some r.content) := by
  cases data with
  | null => simp [anthropicGenerate, pyGetItem, anthropicContentPath, jField]
  | bool b => simp [anthropicGenerate, pyGetItem, anthropicContentPath, jField]
  | num n => simp [anthropicGenerate, pyGetItem, anthropicContentPath, jField]
  | str s => simp [anthropicGenerate, pyGetItem, anthropicContentPath, jField]
  | arr xs => simp [anthropicGenerate, pyGetItem, anthropicContentPath, jField]
  | obj kvs =>
      cases hfind : kvs.find? (fun kv => kv.1 == "content") with
      | none =>
          simp [anthropicGenerate, pyGetItem, hfind, anthropicContentPath, jField]
      | some kv =>
          obtain ⟨ck, cv⟩ := kv
          cases cv with
          | null =>
              simp [anthropicGenerate, pyGetItem, pyGetIdxZero, hfind,
                anthropicContentPath, jField, jHead]
          | bool b =>
              simp [anthropicGenerate, pyGetItem, pyGetIdxZero, hfind,
                anthropicContentPath, jField, jHead]
          | num n =>
              simp [anthropicGenerate, pyGetItem, pyGetIdxZero, hfind,
                anthropicContentPath, jField, jHead]
          | obj okvs =>
              simp [anthropicGenerate, pyGetItem, pyGetIdxZero, hfind,
                anthropicContentPath, jField, jHead]
          | str s =>
              cases hs : s.data with
              | nil =>
                  simp [anthropicGenerate, pyGetItem, pyGetIdxZero, hs, hfind,
                    anthropicContentPath, jField, jHead]
              | cons c cs =>
                  simp [anthropicGenerate, pyGetItem, pyGetIdxZero, hs, hfind,
                    anthropicContentPath, jField, jHead]
          | arr xs =>
              cases xs with
              | nil =>
                  simp [anthropicGenerate, pyGetItem, pyGetIdxZero, hfind,
                    anthropicContentPath, jField, jHead]
              | cons x xs2 =>
                  cases x with
                  | null =>
                      simp [anthropicGenerate, pyGetItem, pyGetIdxZero, hfind,
                        anthropicContentPath, jField, jHead]
                  | bool b =>
                      simp [anthropicGenerate, pyGetItem, pyGetIdxZero, hfind,
                        anthropicContentPath, jField, jHead]
                  | num n =>
                      simp [anthropicGenerate, pyGetItem, pyGetIdxZero, hfind,
                        anthropicContentPath, jField, jHead]
                  | str s2 =>
                      simp [anthropicGenerate, pyGetItem, pyGetIdxZero, hfind,
                        anthropicContentPath, jField, jHead]
                  | arr ys =>
                      simp [anthropicGenerate, pyGetItem, pyGetIdxZero, hfind,
                        anthropicContentPath, jField, jHead]
                  | obj tkvs =>
                      cases ht : tkvs.find? (fun kv => kv.1 == "text") with
                      | none =>
                          simp [anthropicGenerate, pyGetItem, pyGetIdxZero, hfind,
                            ht, anthropicContentPath, jField, jHead]
                      | some tkv =>
                          simp [anthropicGenerate, pyGetItem, pyGetIdxZero,
                            pyDictGetOpt_obj, hfind, ht,
                            anthropicContentPath, jField, jHead]

/-- C6: each provider's `generate_response` returns an `LLMResponse`
exactly when the expected content path is present in the response JSON
(`choices[0].message.content` for OpenAI-style and Custom,
`content[0].text` for Anthropic-style); when the path is absent the
call fails with an exception (malformed response), and when it succeeds
the returned content is exactly the value at that path — never a
partially-populated response. -/
theorem C6_generate_malformed_response (model : String) (data : Json) :
    (((∃ r, openaiGenerate model data = .ok r) ↔
        (openaiContentPath data).isSome) ∧
     (∀ r, openaiGenerate model data = .ok r →
        openaiContentPath data = some r.content)) ∧
    (((∃ r, customGenerate model data = .ok r) ↔
        (openaiContentPath data).isSome) ∧
     (∀ r, customGenerate model data = .ok r →
        openaiContentPath data = some r.content)) ∧
    (((∃ r, anthropicGenerate model data = .ok r) ↔
        (anthropicContentPath data).isSome) ∧
     (∀ r, anthropicGenerate model data = .ok r →
        anthropicContentPath data = some r.content)) :=
  ⟨openaiGenerate_ok_iff model data, customGenerate_ok_iff model data,
   anthropicGenerate_ok_iff model data⟩

/-- C6 witness: a concrete well-formed OpenAI-style response body whose
content path holds `"ok"` — `generate_response` succeeds and returns
exactly that content. -/
theorem C6_witness :
    openaiContentPath
      (Json.obj [("choices", Json.arr
        [Json.obj [("message", Json.obj [("content", Json.str "ok")])]])]) =
      some (Json.str "ok") :=
  (C6_generate_malformed_response "m"
      (Json.obj [("choices", Json.arr
        [Json.obj [("message", Json.obj [("content", Json.str "ok")])]])])).1.2
    { content := Json.str "ok", model := "m", usage := none,
      finish_reason := none, provider := "openai" } rfl


/-- C10 witness: concrete instances at an empty-string prompt and at a
non-empty prompt. -/
theorem C10_witness :
    (process_file_content_messages "body" (some "")).length = 2 ∧
    (process_file_content_messages "body" (some "summarize")).length = 3 :=
  ⟨((C10_process_file_content_messages "body" (some "")).1 (Or.inr rfl)).2,
   ((C10_process_file_content_messages "body" (some "summarize")).2
      "summarize" rfl (by decide)).2⟩

end MarketingAgent
